import Mathlib

/-!
Shallow embedding of `src/main.rs` of the `rust-server` repository: a
minimal single-threaded TCP server.  The handler (the source spells it
`handle_connnection`) reads once into a zero-initialised 512-byte buffer,
classifies the request with `buffer.starts_with(b"GET / HTTP/1.1\r\n")`,
loads one of two files, composes the response
`format!("HTTP/1.1 {}\r\n\r\n", status)` + contents and writes it, where
every fallible step is followed by `.unwrap()`, i.e. a panic that aborts
the whole process.  Bytes are modelled as `Nat`, Rust `String`s as Lean
`String`s, and the I/O environment of a single call (read outcome,
filesystem, write outcome, flush outcome) as an explicit `Env` record.
-/

/-- Bytes are modelled as natural numbers (values 0–255 in practice). -/
abbrev Byte := Nat

/-- The bytes of a Rust string slice (`str::as_bytes`): its UTF-8 encoding.
This follows the definition of `String.toUTF8` but stays inside `List`,
so that it reduces in the kernel. -/
def strBytes (s : String) : List Byte :=
  (s.data.flatMap String.utf8EncodeChar).map (fun b => b.toNat)

/-- The size of the request buffer: `let mut buffer = [0; 512];`. -/
def bufSize : Nat := 512

/-- The byte-string literal `let get = b"GET / HTTP/1.1\r\n";` (16 bytes). -/
def getLit : List Byte := strBytes "GET / HTTP/1.1\r\n"

/-- The request buffer after `stream.read(&mut buffer)` succeeds on the
incoming byte stream `input`: the first `min input.length 512` bytes of the
stream land at the front, and every remaining cell keeps its initial
value `0`. -/
def buffer (input : List Byte) : List Byte :=
  input.take bufSize ++ List.replicate (bufSize - input.length) 0

/-- The branch condition `buffer.starts_with(get)` of the source. -/
def isGet (input : List Byte) : Bool :=
  List.isPrefixOf getLit (buffer input)

/-- First component of `let (status, filename) = if buffer.starts_with(get)
\x7b ("200 OK", "html/hello.html") \x7d else \x7b ("404 NOT FOUND", "html/404.html") \x7d`. -/
def status (input : List Byte) : String :=
  if isGet input then "200 OK" else "404 NOT FOUND"

/-- Second component of the same `let (status, filename) = ...` binding. -/
def filename (input : List Byte) : String :=
  if isGet input then "html/hello.html" else "html/404.html"

/-- The status line `format!("HTTP/1.1 \x7b\x7d\r\n\r\n", status)`. -/
def status_line (input : List Byte) : String :=
  "HTTP/1.1 " ++ status input ++ "\r\n\r\n"

/-- The composed response `format!("\x7b\x7d\x7b\x7d", status_line, contents)`. -/
def response (input : List Byte) (contents : String) : String :=
  status_line input ++ contents

/-- Result of one `handle_connnection` call.  `aborted t` models the whole
process dying from an `unwrap()` panic after the bytes `t` had already been
transmitted on the connection; `done r t` models a normal return, where `r`
is the composed response string and `t` the bytes the write call actually
transmitted. -/
inductive HRes where
  | aborted (transmitted : List Byte)
  | done (resp : String) (transmitted : List Byte)
  deriving DecidableEq

/-- The I/O environment of one `handle_connnection` call: whether
`stream.read` returns `Ok`; what `fs::read_to_string` returns for each path
(`none` models `Err`: missing file, permission error, invalid UTF-8); what a
completed `stream.write` returns (`some n` models `Ok(n)`, i.e. the OS
accepted the first `n` bytes — Rust's `Write::write` may accept fewer bytes
than were passed; `none` models `Err`); and whether `stream.flush` returns
`Ok`. -/
structure Env where
  readOk : Bool
  fs : String → Option String
  writeRes : Option Nat
  flushOk : Bool

/-- `fn handle_connnection(mut stream: TcpStream)`, step by step: one
`stream.read(&mut buffer).unwrap()`, the binary classification, one
`fs::read_to_string(filename).unwrap()`, response composition, one
`stream.write(response.as_bytes()).unwrap()` and one
`stream.flush().unwrap()`.  Each `unwrap()` on an `Err` aborts the whole
process (`HRes.aborted`). -/
def handle_connnection (env : Env) (input : List Byte) : HRes :=
  if env.readOk then
    match env.fs (filename input) with
    | some contents =>
      match env.writeRes with
      | some n =>
        if env.flushOk then
          HRes.done (response input contents) ((strBytes (response input contents)).take n)
        else
          HRes.aborted ((strBytes (response input contents)).take n)
      | none => HRes.aborted []
    | none => HRes.aborted []
  else HRes.aborted []

/-- Outcome of iteration `k` of `for stream in listener.incoming()` in
`main`: `conns k = none` models a failed connection attempt, on which
`stream.unwrap()` panics; otherwise `handle_connnection` runs on that
connection.  `stepOk` holds exactly when iteration `k` completes without
aborting the process. -/
def stepOk (conns : Nat → Option (Env × List Byte)) (k : Nat) : Bool :=
  match conns k with
  | none => false
  | some c =>
    match handle_connnection c.1 c.2 with
    | HRes.done _ _ => true
    | HRes.aborted _ => false

/-- Whether the accept loop of `main` is still running after its first `k`
iterations.  The loop body contains no `break` and no `return` and the
iterator is unbounded, so the loop keeps running exactly as long as every
iteration so far completed without a panic. -/
def aliveAfter (conns : Nat → Option (Env × List Byte)) : Nat → Bool
  | 0 => true
  | k + 1 => aliveAfter conns k && stepOk conns k

/-- A filesystem holding both `html/hello.html` and `html/404.html`. -/
def fsBoth : String → Option String := fun path =>
  if path = "html/hello.html" then some "<p>Hi</p>"
  else if path = "html/404.html" then some "<p>Oops</p>"
  else none

/-- An environment in which every I/O step succeeds and the write call
accepts more bytes than any response used in the witnesses. -/
def envOk : Env := ⟨true, fsBoth, some 1000, true⟩

/-- Like `envOk` but the write call accepts only the first 3 bytes. -/
def envW3 : Env := ⟨true, fsBoth, some 3, true⟩

/-- Like `envOk` but the write call accepts 0 bytes. -/
def envW0 : Env := ⟨true, fsBoth, some 0, true⟩

/-- An environment whose `stream.read` fails. -/
def envRF : Env := ⟨false, fsBoth, some 1000, true⟩

lemma getLit_length : getLit.length = 16 := by decide

lemma getLit_le_bufSize : getLit.length ≤ bufSize := by decide

/-- A stream that starts with the GET literal yields a buffer that starts
with the GET literal: the literal fits inside the 512-byte window. -/
lemma prefixOf_buffer {input : List Byte} (h : getLit <+: input) :
    getLit <+: buffer input := by
  obtain ⟨rest, hrest⟩ := h
  subst hrest
  unfold buffer
  rw [List.take_append_eq_append_take, List.take_of_length_le getLit_le_bufSize,
    List.append_assoc]
  exact List.prefix_append _ _

/-- Cells of the buffer beyond the received length keep their initial
zero value. -/
lemma buffer_getD {input : List Byte} {i : Nat} (h1 : input.length ≤ i)
    (h2 : i < bufSize) : (buffer input).getD i 1 = 0 := by
  have hb : bufSize = 512 := rfl
  have hlen : (input.take bufSize).length = input.length := by
    rw [List.length_take]; omega
  unfold buffer
  rw [List.getD_eq_getElem?_getD, List.getElem?_append_right (by rw [hlen]; exact h1), hlen,
    List.getElem?_replicate_of_lt (by omega)]
  rfl

/-- On a stream long enough to cover the literal, the first 16 bytes of the
buffer are the first 16 bytes of the stream. -/
lemma buffer_take16 {input : List Byte} (h : 16 ≤ input.length) :
    (buffer input).take 16 = input.take 16 := by
  have hb : bufSize = 512 := rfl
  have h2 : (input.take bufSize).length = min bufSize input.length := List.length_take _ _
  have h3 : 16 - (input.take bufSize).length = 0 := by rw [h2]; omega
  have h4 : min 16 bufSize = 16 := by decide
  unfold buffer
  rw [List.take_append_eq_append_take, List.take_take, h3, h4, List.take_zero,
    List.append_nil]

/-- A stream shorter than the 16-byte literal never classifies as a GET
request: the zero-filled tail of the buffer cannot match the literal, whose
bytes are all nonzero. -/
lemma isGet_false_of_short {input : List Byte} (h : input.length < 16) :
    isGet input = false := by
  cases hg : isGet input with
  | false => rfl
  | true =>
    exfalso
    have hpre : getLit <+: buffer input := ( List.isPrefixOf_iff_prefix).mp hg
    obtain ⟨rest, hrest⟩ := hpre
    have hz : (buffer input).getD input.length 1 = 0 :=
      buffer_getD (Nat.le_refl _) (by have hb : bufSize = 512 := rfl; omega)
    have hlit : (buffer input).getD input.length 1 = getLit.getD input.length 1 := by
      rw [← hrest, List.getD_eq_getElem?_getD, List.getD_eq_getElem?_getD,
        List.getElem?_append_left (by rw [getLit_length]; omega)]
    have hne : getLit.getD input.length 1 ≠ 0 := by
      have hh : ∀ i, i < 16 → getLit.getD i 1 ≠ 0 := by decide
      exact hh _ h
    rw [hlit] at hz
    exact hne hz

/-- A stream that the buffer classifies as GET and that is at least as long
as the literal really starts with the literal. -/
lemma prefixOf_of_isGet {input : List Byte} (hg : isGet input = true)
    (hlen : 16 ≤ input.length) : getLit <+: input := by
  have hb : getLit <+: buffer input := ( List.isPrefixOf_iff_prefix).mp hg
  rw [List.prefix_iff_eq_take] at hb ⊢
  rw [getLit_length] at hb ⊢
  rw [hb]
  exact buffer_take16 hlen

/-- The classification of the zero-padded buffer agrees with asking whether
the raw stream itself starts with the 16-byte literal. -/
lemma isGet_eq_isPrefixOf (input : List Byte) :
    isGet input = List.isPrefixOf getLit input := by
  by_cases hlen : 16 ≤ input.length
  · cases hp : List.isPrefixOf getLit input with
    | true =>
      exact ( List.isPrefixOf_iff_prefix).mpr
        (prefixOf_buffer (( List.isPrefixOf_iff_prefix).mp hp))
    | false =>
      cases hg : isGet input with
      | false => rfl
      | true =>
        exfalso
        have hi : getLit <+: input := prefixOf_of_isGet hg hlen
        have hc : List.isPrefixOf getLit input = true :=
          ( List.isPrefixOf_iff_prefix).mpr hi
        rw [hp] at hc
        exact Bool.noConfusion hc
  · rw [isGet_false_of_short (by omega)]
    cases hp : List.isPrefixOf getLit input with
    | false => rfl
    | true =>
      exfalso
      have hle := (( List.isPrefixOf_iff_prefix).mp hp).length_le
      rw [getLit_length] at hle
      omega

/-- The composed response in the GET branch. -/
lemma response_eq_200 {input : List Byte} (hg : isGet input = true) (c : String) :
    response input c = "HTTP/1.1 200 OK\r\n\r\n" ++ c := by
  unfold response status_line status
  rw [hg]
  exact congrArg (fun s => s ++ c) (by decide)

/-- The composed response in the not-found branch. -/
lemma response_eq_404 {input : List Byte} (hg : isGet input = false) (c : String) :
    response input c = "HTTP/1.1 404 NOT FOUND\r\n\r\n" ++ c := by
  unfold response status_line status
  rw [hg]
  exact congrArg (fun s => s ++ c) (by decide)

/-- Completing normally determines every step: reading succeeded, the
selected file loaded with some contents `c`, the write call returned some
count `n`, flushing succeeded, and the response is the composition from
`c`, of which the first `n` bytes were transmitted. -/
lemma done_inv {env : Env} {input : List Byte} {r : String} {t : List Byte}
    (h : handle_connnection env input = HRes.done r t) :
    env.readOk = true ∧ env.flushOk = true ∧
    ∃ c n, env.fs (filename input) = some c ∧ env.writeRes = some n ∧
      r = response input c ∧ t = (strBytes (response input c)).take n := by
  unfold handle_connnection at h
  cases hr : env.readOk with
  | false => rw [hr] at h; exact absurd h (by simp)
  | true =>
    rw [hr, if_pos rfl] at h
    cases heq : env.fs (filename input) with
    | none => rw [heq] at h; exact HRes.noConfusion h
    | some c =>
      rw [heq] at h
      cases heqw : env.writeRes with
      | none => rw [heqw] at h; exact HRes.noConfusion h
      | some n =>
        rw [heqw] at h
        cases hfl : env.flushOk with
        | false =>
          rw [hfl] at h
          exact HRes.noConfusion h
        | true =>
          rw [hfl] at h
          injection h with h1 h2
          exact ⟨rfl, rfl, c, n, rfl, rfl, h1.symm, h2.symm⟩

/-- Buffers agree whenever the streams agree on their first 512 bytes. -/
lemma buffer_ext {input1 input2 : List Byte}
    (h : input1.take bufSize = input2.take bufSize) :
    buffer input1 = buffer input2 := by
  have hl := congrArg List.length h
  rw [List.length_take, List.length_take] at hl
  have hb : bufSize = 512 := rfl
  have hsub : bufSize - input1.length = bufSize - input2.length := by omega
  unfold buffer
  rw [h, hsub]

/-- C1: for every input byte stream of at least 17 bytes that begins with
the literal `GET / HTTP/1.1\r\n` (the literal itself is 16 bytes long), a
run of `handle_connnection` in which every I/O step succeeds produces the
response whose status text is exactly `200 OK` and whose body is exactly
the contents of the success file `html/hello.html`. -/
theorem C1_get_yields_200 (env : Env) (input : List Byte) (hello : String) (n : Nat)
    (_hlen : 17 ≤ input.length)
    (hpre : List.isPrefixOf getLit input = true)
    (hread : env.readOk = true)
    (hfs : env.fs "html/hello.html" = some hello)
    (hw : env.writeRes = some n)
    (hf : env.flushOk = true) :
    status input = "200 OK" ∧
    handle_connnection env input =
      HRes.done ("HTTP/1.1 200 OK\r\n\r\n" ++ hello)
        ((strBytes ("HTTP/1.1 200 OK\r\n\r\n" ++ hello)).take n) := by
  have hg : isGet input = true := by rw [isGet_eq_isPrefixOf]; exact hpre
  have hfn : filename input = "html/hello.html" := by simp [filename, hg]
  have hst : status input = "200 OK" := by simp [status, hg]
  refine ⟨hst, ?_⟩
  unfold handle_connnection
  rw [hread, hfn, hfs, hw, hf]
  simp [response_eq_200 hg]

/-- Witness for C1 at the concrete 17-byte stream `getLit ++ [13]` in an
environment where every I/O step succeeds. -/
theorem C1_witness :
    status (getLit ++ [13]) = "200 OK" ∧
    handle_connnection envOk (getLit ++ [13]) =
      HRes.done ("HTTP/1.1 200 OK\r\n\r\n" ++ "<p>Hi</p>")
        ((strBytes ("HTTP/1.1 200 OK\r\n\r\n" ++ "<p>Hi</p>")).take 1000) :=
  C1_get_yields_200 envOk (getLit ++ [13]) "<p>Hi</p>" 1000 (by decide) (by decide)
    (by decide) (by decide) (by decide) (by decide)

/-- C2 counterexample: the 16-byte stream equal to the GET literal has
fewer than 17 bytes, yet it matches the success pattern and receives the
`200 OK` response, not `404 NOT FOUND` — refuting the claim that inputs of
fewer than 17 bytes are classified as not-found. -/
theorem C2_counterexample :
    getLit.length < 17 ∧
    status getLit = "200 OK" ∧
    handle_connnection envOk getLit =
      HRes.done ("HTTP/1.1 200 OK\r\n\r\n" ++ "<p>Hi</p>")
        ((strBytes ("HTTP/1.1 200 OK\r\n\r\n" ++ "<p>Hi</p>")).take 1000) ∧
    status getLit ≠ "404 NOT FOUND" :=
  ⟨by decide, by decide, by decide, by decide⟩

/-- C2 as amended: for every input byte stream that does not start with the
16-byte literal `GET / HTTP/1.1\r\n` (including empty input, a different
method, a different path, or fewer than 16 bytes received), a run in which
every I/O step succeeds produces status text exactly `404 NOT FOUND` with
body the contents of `html/404.html`, and there is no third outcome. -/
theorem C2_amended_404 (env : Env) (input : List Byte) (nf : String) (n : Nat)
    (hpre : List.isPrefixOf getLit input = false)
    (hread : env.readOk = true)
    (hfs : env.fs "html/404.html" = some nf)
    (hw : env.writeRes = some n)
    (hf : env.flushOk = true) :
    status input = "404 NOT FOUND" ∧
    handle_connnection env input =
      HRes.done ("HTTP/1.1 404 NOT FOUND\r\n\r\n" ++ nf)
        ((strBytes ("HTTP/1.1 404 NOT FOUND\r\n\r\n" ++ nf)).take n) ∧
    (∀ other : List Byte, status other = "200 OK" ∨ status other = "404 NOT FOUND") := by
  have hg : isGet input = false := by rw [isGet_eq_isPrefixOf]; exact hpre
  have hfn : filename input = "html/404.html" := by simp [filename, hg]
  have hst : status input = "404 NOT FOUND" := by simp [status, hg]
  refine ⟨hst, ?_, ?_⟩
  · unfold handle_connnection
    rw [hread, hfn, hfs, hw, hf]
    simp [response_eq_404 hg]
  · intro other
    unfold status
    cases isGet other
    · simp
    · simp

/-- Witness for the amended C2 at the concrete 1-byte stream `[80]`
(the byte `P`). -/
theorem C2_amended_witness :
    status [80] = "404 NOT FOUND" ∧
    handle_connnection envOk [80] =
      HRes.done ("HTTP/1.1 404 NOT FOUND\r\n\r\n" ++ "<p>Oops</p>")
        ((strBytes ("HTTP/1.1 404 NOT FOUND\r\n\r\n" ++ "<p>Oops</p>")).take 1000) ∧
    (status [99] = "200 OK" ∨ status [99] = "404 NOT FOUND") :=
  ⟨(C2_amended_404 envOk [80] "<p>Oops</p>" 1000 (by decide) (by decide) (by decide)
      (by decide) (by decide)).1,
   (C2_amended_404 envOk [80] "<p>Oops</p>" 1000 (by decide) (by decide) (by decide)
      (by decide) (by decide)).2.1,
   (C2_amended_404 envOk [80] "<p>Oops</p>" 1000 (by decide) (by decide) (by decide)
      (by decide) (by decide)).2.2 [99]⟩

/-- C3: for every input and file contents, the composed response is exactly
`HTTP/1.1 ` + status text + `\r\n\r\n` + body — the status line, exactly
one blank CRLF line, then the body, with no headers in between — and the
status text is one of the two literals. -/
theorem C3_response_shape (input : List Byte) (contents : String) :
    response input contents = "HTTP/1.1 " ++ status input ++ "\r\n\r\n" ++ contents ∧
    (status input = "200 OK" ∨ status input = "404 NOT FOUND") := by
  constructor
  · rfl
  · unfold status
    cases isGet input
    · simp
    · simp

/-- C4: `handle_connnection` is deterministic in its inputs — two runs on
separate connections carrying the same request bytes, with the two files
unchanged between the runs, that both complete produce byte-identical
composed responses. -/
theorem C4_deterministic (env1 env2 : Env) (input : List Byte)
    (r1 r2 : String) (t1 t2 : List Byte)
    (hfs1 : env1.fs "html/hello.html" = env2.fs "html/hello.html")
    (hfs2 : env1.fs "html/404.html" = env2.fs "html/404.html")
    (h1 : handle_connnection env1 input = HRes.done r1 t1)
    (h2 : handle_connnection env2 input = HRes.done r2 t2) :
    r1 = r2 := by
  obtain ⟨-, -, c1, n1, hc1, -, hr1, -⟩ := done_inv h1
  obtain ⟨-, -, c2, n2, hc2, -, hr2, -⟩ := done_inv h2
  have hfs : env1.fs (filename input) = env2.fs (filename input) := by
    unfold filename
    cases isGet input
    · simp [hfs2]
    · simp [hfs1]
  rw [hc1, hc2] at hfs
  obtain rfl : c1 = c2 := Option.some.inj hfs
  rw [hr1, hr2]

/-- Witness for C4: two runs with different write acceptances but the same
files and the same empty request produce the same composed response. -/
theorem C4_witness :
    "HTTP/1.1 404 NOT FOUND\r\n\r\n" ++ "<p>Oops</p>" =
      "HTTP/1.1 404 NOT FOUND\r\n\r\n" ++ "<p>Oops</p>" :=
  C4_deterministic envOk envW3 []
    ("HTTP/1.1 404 NOT FOUND\r\n\r\n" ++ "<p>Oops</p>")
    ("HTTP/1.1 404 NOT FOUND\r\n\r\n" ++ "<p>Oops</p>")
    ((strBytes ("HTTP/1.1 404 NOT FOUND\r\n\r\n" ++ "<p>Oops</p>")).take 1000)
    ((strBytes ("HTTP/1.1 404 NOT FOUND\r\n\r\n" ++ "<p>Oops</p>")).take 3)
    rfl rfl (by decide) (by decide)

/-- C5: the behaviour of `handle_connnection` depends only on the first 512
bytes of the input stream — two streams agreeing on their first 512 bytes
produce identical results in any environment — and a stream of exactly 512
bytes whose leading bytes match the GET literal still classifies as
success. -/
theorem C5_first_512_bytes (env : Env) (input1 input2 : List Byte)
    (h : input1.take 512 = input2.take 512) :
    handle_connnection env input1 = handle_connnection env input2 ∧
    (∀ full : List Byte, full.length = 512 → List.isPrefixOf getLit full = true →
      status full = "200 OK") := by
  constructor
  · have hb : buffer input1 = buffer input2 := buffer_ext h
    have hg : isGet input1 = isGet input2 := by unfold isGet; rw [hb]
    have hfn : filename input1 = filename input2 := by unfold filename; rw [hg]
    have hresp : response input1 = response input2 := by
      funext c
      unfold response status_line status
      rw [hg]
    unfold handle_connnection
    rw [hfn, hresp]
  · intro full _hlen hpre
    have hg : isGet full = true := by rw [isGet_eq_isPrefixOf]; exact hpre
    simp [status, hg]

set_option maxRecDepth 20000 in
/-- Witness for C5: two concrete streams of lengths 513 and 515 agreeing on
their first 512 bytes, and the concrete 512-byte stream starting with the
GET literal. -/
theorem C5_witness :
    handle_connnection envOk (List.replicate 513 7) =
      handle_connnection envOk (List.replicate 512 7 ++ [9, 9, 9]) ∧
    status (getLit ++ List.replicate 496 0) = "200 OK" :=
  ⟨(C5_first_512_bytes envOk (List.replicate 513 7) (List.replicate 512 7 ++ [9, 9, 9])
      (by decide)).1,
   (C5_first_512_bytes envOk (List.replicate 513 7) (List.replicate 512 7 ++ [9, 9, 9])
      (by decide)).2 (getLit ++ List.replicate 496 0) (by decide) (by decide)⟩

/-- C6: every failure — read failing, the selected file missing or
unreadable, the write failing, or the flush failing — makes the handler
abort the whole process, with no response handling continuing after the
failing step; completing normally requires every step to have succeeded. -/
theorem C6_failures_fatal (env : Env) (input : List Byte) :
    (env.readOk = false → handle_connnection env input = HRes.aborted []) ∧
    (env.readOk = true → env.fs (filename input) = none →
      handle_connnection env input = HRes.aborted []) ∧
    (∀ c, env.readOk = true → env.fs (filename input) = some c →
      env.writeRes = none → handle_connnection env input = HRes.aborted []) ∧
    (∀ c n, env.readOk = true → env.fs (filename input) = some c →
      env.writeRes = some n → env.flushOk = false →
      handle_connnection env input =
        HRes.aborted ((strBytes (response input c)).take n)) ∧
    (∀ r t, handle_connnection env input = HRes.done r t →
      env.readOk = true ∧ (∃ c, env.fs (filename input) = some c) ∧
      (∃ n, env.writeRes = some n) ∧ env.flushOk = true) := by
  refine ⟨?_, ?_, ?_, ?_, ?_⟩
  · intro h
    simp [handle_connnection, h]
  · intro h1 h2
    simp [handle_connnection, h1, h2]
  · intro c h1 h2 h3
    simp [handle_connnection, h1, h2, h3]
  · intro c n h1 h2 h3 h4
    simp [handle_connnection, h1, h2, h3, h4]
  · intro r t h
    obtain ⟨hr, hfl, c, n, hc, hn, -, -⟩ := done_inv h
    exact ⟨hr, ⟨c, hc⟩, ⟨n, hn⟩, hfl⟩

/-- Witness for C6: a failing read aborts the process before anything is
transmitted. -/
theorem C6_witness :
    handle_connnection envRF [] = HRes.aborted [] :=
  (C6_failures_fatal envRF []).1 rfl

/-- C7 (evaluation at the failing input): the write step does not guarantee
that the full response is transmitted.  With the request being the exact
GET literal and the OS accepting 0 of the bytes passed to the single
`stream.write` call, the handler still flushes and returns normally, yet no
byte of the nonempty composed response was transmitted: the source uses
`write` — whose returned byte count it discards — instead of `write_all`,
so nothing retransmits the unaccepted remainder. -/
theorem C7_partial_write_lost :
    handle_connnection envW0 getLit =
      HRes.done "HTTP/1.1 200 OK\r\n\r\n<p>Hi</p>" [] ∧
    strBytes "HTTP/1.1 200 OK\r\n\r\n<p>Hi</p>" ≠ [] :=
  ⟨by decide, by decide⟩

/-- C8: the 512-byte request buffer invariant — the buffer always has
length 512, every cell at an index at or beyond the received length holds
the initial zero, and an input shorter than the 16-byte literal can never
classify as success, because the literal contains no zero byte. -/
theorem C8_buffer_invariant (input : List Byte) (i : Nat)
    (h1 : input.length ≤ i) (h2 : i < 512) :
    (buffer input).length = 512 ∧
    (buffer input).getD i 1 = 0 ∧
    (input.length < getLit.length → isGet input = false) := by
  refine ⟨?_, buffer_getD h1 h2, ?_⟩
  · have hb : bufSize = 512 := rfl
    unfold buffer
    rw [List.length_append, List.length_take, List.length_replicate]
    omega
  · intro hshort
    rw [getLit_length] at hshort
    exact isGet_false_of_short hshort

set_option maxRecDepth 20000 in
/-- Witness for C8 at the concrete 2-byte stream `[71, 69]` and index 2. -/
theorem C8_witness :
    (buffer [71, 69]).length = 512 ∧
    (buffer [71, 69]).getD 2 1 = 0 ∧
    isGet [71, 69] = false :=
  ⟨(C8_buffer_invariant [71, 69] 2 (by decide) (by decide)).1,
   (C8_buffer_invariant [71, 69] 2 (by decide) (by decide)).2.1,
   (C8_buffer_invariant [71, 69] 2 (by decide) (by decide)).2.2 (by decide)⟩

/-- C9: the matched literal `GET / HTTP/1.1\r\n` is 16 bytes long, and an
input of exactly those 16 bytes — with nothing after them — classifies as
success and, in a run where every I/O step succeeds, receives the `200 OK`
response with the success file as body. -/
theorem C9_exact_literal_succeeds (env : Env) (hello : String) (n : Nat)
    (hread : env.readOk = true)
    (hfs : env.fs "html/hello.html" = some hello)
    (hw : env.writeRes = some n)
    (hf : env.flushOk = true) :
    getLit.length = 16 ∧
    status getLit = "200 OK" ∧
    handle_connnection env getLit =
      HRes.done ("HTTP/1.1 200 OK\r\n\r\n" ++ hello)
        ((strBytes ("HTTP/1.1 200 OK\r\n\r\n" ++ hello)).take n) := by
  have hg : isGet getLit = true := by decide
  have hfn : filename getLit = "html/hello.html" := by simp [filename, hg]
  refine ⟨getLit_length, by simp [status, hg], ?_⟩
  unfold handle_connnection
  rw [hread, hfn, hfs, hw, hf]
  simp [response_eq_200 hg]

/-- Witness for C9 in the concrete all-succeeding environment. -/
theorem C9_witness :
    getLit.length = 16 ∧
    status getLit = "200 OK" ∧
    handle_connnection envOk getLit =
      HRes.done ("HTTP/1.1 200 OK\r\n\r\n" ++ "<p>Hi</p>")
        ((strBytes ("HTTP/1.1 200 OK\r\n\r\n" ++ "<p>Hi</p>")).take 1000) :=
  C9_exact_literal_succeeds envOk "<p>Hi</p>" 1000 (by decide) (by decide) (by decide)
    (by decide)

/-- C10: the accept loop of `main` never terminates normally — when every
connection attempt and every handler run succeeds it is still running after
any number of iterations, and whenever it has stopped, some earlier
iteration failed (a panic on accept, read, file load, write or flush); it
never exits by reaching the end of `main`. -/
theorem C10_accept_loop_unbounded (conns : Nat → Option (Env × List Byte)) :
    ((∀ k, stepOk conns k = true) → ∀ n, aliveAfter conns n = true) ∧
    (∀ n, aliveAfter conns n = false → ∃ m, m < n ∧ stepOk conns m = false) := by
  constructor
  · intro h n
    induction n with
    | zero => rfl
    | succ k ih =>
      unfold aliveAfter
      rw [ih, h k]
      rfl
  · intro n
    induction n with
    | zero =>
      intro h
      exact Bool.noConfusion h
    | succ k ih =>
      intro h
      unfold aliveAfter at h
      cases ha : aliveAfter conns k with
      | false =>
        obtain ⟨m, hm, hs⟩ := ih ha
        exact ⟨m, Nat.lt_succ_of_lt hm, hs⟩
      | true =>
        cases hs : stepOk conns k with
        | false => exact ⟨k, Nat.lt_succ_self k, hs⟩
        | true =>
          rw [ha, hs] at h
          exact Bool.noConfusion h

/-- A sequence of connection attempts that all succeed and all complete. -/
def connsOk : Nat → Option (Env × List Byte) := fun _ => some (envOk, [])

/-- Witness for C10: with all-succeeding connections the loop is still
running after 5 iterations. -/
theorem C10_witness : aliveAfter connsOk 5 = true :=
  (C10_accept_loop_unbounded connsOk).1 (fun _ => rfl) 5
